import Mathlib

/-!
Shallow embedding of the configuration resolver of `cdk/app/config/app-config-reader.ts`
(`loadAppConfig`, its per-environment extractor `extractEnv`, and the record types
`EnvConfig` / `ResolvedAppConfig`), together with theorems about the precedence,
default and validation behaviour of the resolver.

Modelling conventions:
  * JSON-like JavaScript values are `JsonVal`; the value `undefined` (absent
    property, unset environment variable) is `Option.none` at use sites.
  * JSON numbers are modelled as integers (`Int`): every numeric field the
    configuration uses (`appPortNum`, `terminationWaitTimeMinutes`) is integral.
    The JavaScript `Number(...)` coercion can produce `NaN`, so coerced numbers
    live in `JsNum`, which adds a `nan` point.
  * `fs.readFileSync` + `JSON.parse` of the well-known config file are modelled
    as a single input `FileOutcome`: the file may be absent (`ENOENT`), may fail
    to read or parse (any other exception; the reader logs and keeps the empty
    base object), or may parse to a value.
  * Environment variables are an input `env : String → Option String`
    (process environment values are strings).
  * The resolver throws `Error(msg)` for missing required fields; this is
    modelled as `Except String`.
-/

set_option autoImplicit false

namespace AppConfigReader

/-- A JSON-like JavaScript value (numbers restricted to integers, see above). -/
inductive JsonVal where
  | null
  | bool (b : Bool)
  | num (n : Int)
  | str (s : String)
  | arr (elems : List JsonVal)
  | obj (fields : List (String × JsonVal))

/-- A JavaScript number that may be `NaN` (result of `Number(...)` coercion). -/
inductive JsNum where
  | int (n : Int)
  | nan
  deriving DecidableEq

/-- Outcome of reading and parsing the well-known configuration file
(`config/app-config.json`): absent (`ENOENT`), unreadable or unparsable
(any other exception from `fs.readFileSync` or `JSON.parse`; logged and
ignored by the reader), or parsed to a JSON value. -/
inductive FileOutcome where
  | absent
  | parseError
  | parsed (v : JsonVal)

/-- JavaScript truthiness of a value: `null`, `false`, `0` and the empty
string are falsy; every object and array is truthy. -/
def jsTruthyV : JsonVal → Bool
  | .null => false
  | .bool b => b
  | .num n => n != 0
  | .str s => s != ""
  | .arr _ => true
  | .obj _ => true

/-- Truthiness of a possibly-`undefined` value (`undefined` is falsy). -/
def jsTruthy : Option JsonVal → Bool
  | none => false
  | some v => jsTruthyV v

/-- Whether a possibly-`undefined` value is nullish (`undefined` or `null`),
the condition tested by the JavaScript `??` operator. -/
def jsNullish : Option JsonVal → Bool
  | none => true
  | some .null => true
  | some _ => false

/-- The JavaScript nullish-coalescing operator `a ?? b`. -/
def jsCoalesce (a b : Option JsonVal) : Option JsonVal :=
  if jsNullish a then b else a

/-- The JavaScript logical-or `a || d` as used for defaulting
(`(baseConfig[key]) || {}`): keeps `a` when truthy, else the default. -/
def jsOr (a : Option JsonVal) (d : JsonVal) : JsonVal :=
  match a with
  | some v => if jsTruthyV v then v else d
  | none => d

/-- First binding of a key in an object field list (JavaScript objects have
unique keys, so the list is expected `Nodup`; lookup takes the first match). -/
def lookupField : List (String × JsonVal) → String → Option JsonVal
  | [], _ => none
  | (k, v) :: rest, key => if k = key then some v else lookupField rest key

/-- Accumulates a run of decimal digits; fails on a non-digit. -/
def canonicalDigits : List Char → Nat → Option Nat
  | [], acc => some acc
  | c :: rest, acc =>
      if 48 ≤ c.toNat && c.toNat ≤ 57 then
        canonicalDigits rest (acc * 10 + (c.toNat - 48))
      else none

/-- A key that is a canonical array index (a digit run with no leading zero,
or exactly "0"), as used by JavaScript array element access. -/
def canonicalIndexAux : List Char → Option Nat
  | [] => none
  | c :: rest =>
      if c == '0' then (if rest = [] then some 0 else none)
      else canonicalDigits (c :: rest) 0

/-- JavaScript property access `v[key]` returning `undefined` (`none`) when
absent. Objects look up the key; arrays expose their elements under canonical
numeric string keys; property access on other primitives used by this reader
(string/number/boolean) yields `undefined` for all configuration key names. -/
def getField : JsonVal → String → Option JsonVal
  | .obj fields, key => lookupField fields key
  | .arr elems, key =>
      match canonicalIndexAux key.toList with
      | some i => elems.get? i
      | none => none
  | _, _ => none

/-- The keys enumerated by `Object.keys` for the base-configuration value:
the own keys of an object, the index keys of an array, and nothing for
primitives. -/
def objKeys : JsonVal → List String
  | .obj fields => fields.map Prod.fst
  | .arr elems => (List.range elems.length).map toString
  | _ => []

/-- Whitespace stripped by the JavaScript `Number` coercion (the ASCII
whitespace occurring in configuration values). -/
def isJsSpace (c : Char) : Bool :=
  c == ' ' || c == '\t' || c == '\n' || c == '\r'

/-- Both-ends whitespace trim on a character list. -/
def trimChars (cs : List Char) : List Char :=
  ((cs.dropWhile isJsSpace).reverse.dropWhile isJsSpace).reverse

/-- Decimal digit test. -/
def isDigitChar (c : Char) : Bool :=
  48 ≤ c.toNat && c.toNat ≤ 57

/-- Accumulator for a run of decimal digits; fails on a non-digit. -/
def parseDigitsAux : List Char → Nat → Option Nat
  | [], acc => some acc
  | c :: rest, acc =>
      if isDigitChar c then parseDigitsAux rest (acc * 10 + (c.toNat - 48))
      else none

/-- A non-empty all-digit run parsed as a natural number. -/
def parseDigits : List Char → Option Nat
  | [] => none
  | cs => parseDigitsAux cs 0

/-- JavaScript `Number(s)` on a string: trimmed-empty is `0`, an optionally
signed decimal integer literal is its value, anything else is `NaN`
(non-integer numeric strings are outside this integral model). -/
def parseJsNumber (s : String) : JsNum :=
  match trimChars s.toList with
  | [] => JsNum.int 0
  | '-' :: rest =>
      match parseDigits rest with
      | some n => JsNum.int (-(n : Int))
      | none => JsNum.nan
  | '+' :: rest =>
      match parseDigits rest with
      | some n => JsNum.int (n : Int)
      | none => JsNum.nan
  | cs =>
      match parseDigits cs with
      | some n => JsNum.int (n : Int)
      | none => JsNum.nan

/-- JavaScript `Number(x)` on the values the resolver can feed it
(`undefined` gives `NaN`, `null` gives `0`, booleans give `0`/`1`;
objects and arrays coerce through strings and are modelled as `NaN`). -/
def toNumber : Option JsonVal → JsNum
  | none => JsNum.nan
  | some .null => JsNum.int 0
  | some (.bool b) => JsNum.int (if b then 1 else 0)
  | some (.num n) => JsNum.int n
  | some (.str s) => parseJsNumber s
  | some (.arr _) => JsNum.nan
  | some (.obj _) => JsNum.nan

/-- JavaScript strict equality `x === false`: true exactly for the boolean
value `false` (used for `baseConfig.wantGrafana === false`). -/
def strictEqFalse : Option JsonVal → Bool
  | some (.bool false) => true
  | _ => false

/-- Environment-specific configuration (`EnvConfig` in the source). Every
field is whatever raw value the source bag supplied (the `as` casts in the
source are compile-time only), `none` when absent. -/
structure EnvConfig where
  computePlatform : Option JsonVal
  stagingEnvironment : Option JsonVal
  imageSource : Option JsonVal
  repositoryName : Option JsonVal
  imageTag : Option JsonVal
  healthCheckCommand : Option JsonVal
  healthCheckPath : Option JsonVal
  s3BucketName : Option JsonVal
  bucketIsCdkManaged : Option JsonVal
  subdomain : Option JsonVal

/-- The `EnvConfig` produced from an empty or non-object raw entry. -/
def emptyEnvConfig : EnvConfig :=
  { computePlatform := none
    stagingEnvironment := none
    imageSource := none
    repositoryName := none
    imageTag := none
    healthCheckCommand := none
    healthCheckPath := none
    s3BucketName := none
    bucketIsCdkManaged := none
    subdomain := none }

/-- Fully resolved application configuration (`ResolvedAppConfig` in the
source). The four required fields are guaranteed truthy by validation;
`envConfigs` keeps the insertion order of `Object.keys`. -/
structure ResolvedAppConfig where
  account : Option JsonVal
  region : Option JsonVal
  serviceName : Option JsonVal
  domainName : Option JsonVal
  hostedZoneId : Option JsonVal
  appPortNum : JsNum
  envConfigs : List (String × EnvConfig)
  terminationWaitTimeMinutes : JsNum
  wantGrafana : Bool

/-- Body of `extractEnv` applied to the raw entry value after the
`(... ) || {}` defaulting: each field is the corresponding property of the
raw bag, absent when the bag does not carry it. -/
def extractEnvRaw (raw : JsonVal) : EnvConfig :=
  { computePlatform := getField raw "computePlatform"
    stagingEnvironment := getField raw "stagingEnvironment"
    imageSource := getField raw "imageSource"
    repositoryName := getField raw "repositoryName"
    imageTag := getField raw "imageTag"
    healthCheckCommand := getField raw "healthCheckCommand"
    healthCheckPath := getField raw "healthCheckPath"
    s3BucketName := getField raw "s3BucketName"
    bucketIsCdkManaged := getField raw "bucketIsCdkManaged"
    subdomain := getField raw "subdomain" }

/-- The inner `extractEnv(key)` of `loadAppConfig`:
`const raw = (baseConfig[key] as Record<string, any>) || {}` then a record
of the ten fields of `raw`. -/
def extractEnv (baseConfig : JsonVal) (key : String) : EnvConfig :=
  extractEnvRaw (jsOr (getField baseConfig key) (JsonVal.obj []))

/-- The reserved top-level scalar key set of the resolver. -/
def RESERVED : List String :=
  ["account", "region", "serviceName", "domainName", "hostedZoneId",
   "appPortNum", "terminationWaitTimeMinutes", "wantGrafana"]

/-- The `envConfigs` map: one entry per non-reserved top-level key of the
base configuration, in `Object.keys` order, mapped through `extractEnv`. -/
def buildEnvConfigs (baseConfig : JsonVal) : List (String × EnvConfig) :=
  ((objKeys baseConfig).filter (fun key => !(RESERVED.contains key))).map
    (fun key => (key, extractEnv baseConfig key))

/-- JavaScript `typeof v === "object"`: true for objects, arrays and `null`. -/
def typeofObject : JsonVal → Bool
  | .obj _ => true
  | .arr _ => true
  | .null => true
  | _ => false

/-- The in-memory context tier: the condition
`context && context.myAppConfig && typeof context.myAppConfig === "object"`
of the source, returning the `myAppConfig` object when it is recognized. -/
def contextAppConfig (context : Option JsonVal) : Option JsonVal :=
  match context with
  | none => none
  | some c =>
      if jsTruthyV c then
        match getField c "myAppConfig" with
        | some m => if jsTruthyV m && typeofObject m then some m else none
        | none => none
      else none

/-- The base configuration contributed by the file tier: the parsed value
when the file parses, otherwise `baseConfig` keeps its initial `{}`. -/
def fileBase : FileOutcome → JsonVal
  | .parsed v => v
  | .absent => JsonVal.obj []
  | .parseError => JsonVal.obj []

/-- Selection of the base configuration object: the recognized context
override wins outright; otherwise the file tier is consulted. -/
def selectBase (context : Option JsonVal) (file : FileOutcome) : JsonVal :=
  match contextAppConfig context with
  | some m => m
  | none => fileBase file

/-- Environment-variable value as a JavaScript value (strings when set). -/
def envStr (env : String → Option String) (name : String) : Option JsonVal :=
  (env name).map JsonVal.str

/-- `baseConfig.account ?? process.env.CDK_DEFAULT_ACCOUNT`. -/
def resolvedAccount (baseConfig : JsonVal) (env : String → Option String) : Option JsonVal :=
  jsCoalesce (getField baseConfig "account") (envStr env "CDK_DEFAULT_ACCOUNT")

/-- `baseConfig.region ?? process.env.CDK_DEFAULT_REGION`. -/
def resolvedRegion (baseConfig : JsonVal) (env : String → Option String) : Option JsonVal :=
  jsCoalesce (getField baseConfig "region") (envStr env "CDK_DEFAULT_REGION")

/-- `baseConfig.serviceName ?? process.env.CDK_SERVICE_NAME`. -/
def resolvedServiceName (baseConfig : JsonVal) (env : String → Option String) : Option JsonVal :=
  jsCoalesce (getField baseConfig "serviceName") (envStr env "CDK_SERVICE_NAME")

/-- `baseConfig.domainName ?? process.env.CDK_DOMAIN_NAME`. -/
def resolvedDomainName (baseConfig : JsonVal) (env : String → Option String) : Option JsonVal :=
  jsCoalesce (getField baseConfig "domainName") (envStr env "CDK_DOMAIN_NAME")

/-- `baseConfig.hostedZoneId ?? process.env.CDK_HOSTED_ZONE_ID ?? ""`. -/
def resolvedHostedZoneId (baseConfig : JsonVal) (env : String → Option String) : Option JsonVal :=
  jsCoalesce
    (jsCoalesce (getField baseConfig "hostedZoneId") (envStr env "CDK_HOSTED_ZONE_ID"))
    (some (JsonVal.str ""))

/-- `Number(baseConfig.appPortNum ?? process.env.CDK_APP_PORT_NUM ?? 3000)`. -/
def resolvedAppPortNum (baseConfig : JsonVal) (env : String → Option String) : JsNum :=
  toNumber
    (jsCoalesce
      (jsCoalesce (getField baseConfig "appPortNum") (envStr env "CDK_APP_PORT_NUM"))
      (some (JsonVal.num 3000)))

/-- `Number(baseConfig.terminationWaitTimeMinutes ?? process.env.CDK_TERMINATION_WAIT_TIME_MINUTES ?? 5)`. -/
def resolvedTerminationWait (baseConfig : JsonVal) (env : String → Option String) : JsNum :=
  toNumber
    (jsCoalesce
      (jsCoalesce (getField baseConfig "terminationWaitTimeMinutes")
        (envStr env "CDK_TERMINATION_WAIT_TIME_MINUTES"))
      (some (JsonVal.num 5)))

/-- `const wantGrafana = baseConfig.wantGrafana === false`. -/
def resolvedWantGrafana (baseConfig : JsonVal) : Bool :=
  strictEqFalse (getField baseConfig "wantGrafana")

/-- Error message thrown when `account` is missing. -/
def accountRequiredMsg : String :=
  "CDK_DEFAULT_ACCOUNT is required (via context, config file, or env)"

/-- Error message thrown when `region` is missing. -/
def regionRequiredMsg : String :=
  "CDK_DEFAULT_REGION is required (via context, config file, or env)"

/-- Error message thrown when `serviceName` is missing. -/
def serviceNameRequiredMsg : String :=
  "CDK_SERVICE_NAME is required (via context, config file, or env)"

/-- Error message thrown when `domainName` is missing. -/
def domainNameRequiredMsg : String :=
  "CDK_DOMAIN_NAME is required (via context, config file, or env)"

/-- Resolution over an already-selected base configuration object: resolves
each scalar with per-field environment fallback, validates the four required
fields in order (`if (!x) throw`), and builds the `envConfigs` map. -/
def resolveFromBase (baseConfig : JsonVal)
    (env : String → Option String) : Except String ResolvedAppConfig :=
  if jsTruthy (resolvedAccount baseConfig env) = false then
    Except.error accountRequiredMsg
  else if jsTruthy (resolvedRegion baseConfig env) = false then
    Except.error regionRequiredMsg
  else if jsTruthy (resolvedServiceName baseConfig env) = false then
    Except.error serviceNameRequiredMsg
  else if jsTruthy (resolvedDomainName baseConfig env) = false then
    Except.error domainNameRequiredMsg
  else
    Except.ok
      { account := resolvedAccount baseConfig env
        region := resolvedRegion baseConfig env
        serviceName := resolvedServiceName baseConfig env
        domainName := resolvedDomainName baseConfig env
        hostedZoneId := resolvedHostedZoneId baseConfig env
        appPortNum := resolvedAppPortNum baseConfig env
        envConfigs := buildEnvConfigs baseConfig
        terminationWaitTimeMinutes := resolvedTerminationWait baseConfig env
        wantGrafana := resolvedWantGrafana baseConfig }

/-- The resolver `loadAppConfig(context)` with the file and environment
capabilities made explicit inputs: selects the base configuration (context
tier, else file tier, else empty) and resolves from it. -/
def loadAppConfig (context : Option JsonVal) (file : FileOutcome)
    (env : String → Option String) : Except String ResolvedAppConfig :=
  resolveFromBase (selectBase context file) env

/-! Concrete inputs used by witness and counterexample theorems. -/

/-- A minimal base configuration: only the four required fields. -/
def minBaseExample : JsonVal :=
  JsonVal.obj
    [("account", JsonVal.str "a"), ("region", JsonVal.str "r"),
     ("serviceName", JsonVal.str "s"), ("domainName", JsonVal.str "d")]

/-- A context carrying `minBaseExample` under `myAppConfig`. -/
def minContextExample : JsonVal := JsonVal.obj [("myAppConfig", minBaseExample)]

/-- Field list of a full base configuration with all scalar fields and one
environment entry. -/
def fullBaseFields : List (String × JsonVal) :=
  [("account", JsonVal.str "ctx-acct"), ("region", JsonVal.str "ctx-region"),
   ("serviceName", JsonVal.str "ctx-svc"), ("domainName", JsonVal.str "ctx-domain"),
   ("hostedZoneId", JsonVal.str "ctx-zone"), ("appPortNum", JsonVal.num 8080),
   ("terminationWaitTimeMinutes", JsonVal.num 9), ("wantGrafana", JsonVal.bool true),
   ("dev", JsonVal.obj
     [("computePlatform", JsonVal.str "ecs"), ("stagingEnvironment", JsonVal.str "dev"),
      ("imageTag", JsonVal.str "v1")])]

/-- A full base configuration with all scalar fields and one environment entry. -/
def fullBaseExample : JsonVal := JsonVal.obj fullBaseFields

/-- A context carrying `fullBaseExample` under `myAppConfig`. -/
def fullContextExample : JsonVal := JsonVal.obj [("myAppConfig", fullBaseExample)]

/-- A base configuration that explicitly disables the telemetry sidecar. -/
def grafanaFalseBaseExample : JsonVal :=
  JsonVal.obj
    [("account", JsonVal.str "a"), ("region", JsonVal.str "r"),
     ("serviceName", JsonVal.str "s"), ("domainName", JsonVal.str "d"),
     ("wantGrafana", JsonVal.bool false)]

/-- A context carrying `grafanaFalseBaseExample` under `myAppConfig`. -/
def grafanaFalseContextExample : JsonVal :=
  JsonVal.obj [("myAppConfig", grafanaFalseBaseExample)]

/-- A context whose base configuration maps `account` to the empty string. -/
def emptyAccountContextExample : JsonVal :=
  JsonVal.obj [("myAppConfig", JsonVal.obj [("account", JsonVal.str "")])]

/-- File contents with required and optional scalars set to file sentinels. -/
def fileExampleA : JsonVal :=
  JsonVal.obj
    [("account", JsonVal.str "file-acct"), ("region", JsonVal.str "file-region"),
     ("serviceName", JsonVal.str "file-svc"), ("domainName", JsonVal.str "file-domain"),
     ("hostedZoneId", JsonVal.str "file-zone"), ("appPortNum", JsonVal.num 8081),
     ("terminationWaitTimeMinutes", JsonVal.num 11)]

/-- Environment variables set to environment sentinels. -/
def envExampleC : String → Option String := fun name =>
  if name = "CDK_DEFAULT_ACCOUNT" then some "env-acct"
  else if name = "CDK_DEFAULT_REGION" then some "env-region"
  else if name = "CDK_SERVICE_NAME" then some "env-svc"
  else if name = "CDK_DOMAIN_NAME" then some "env-domain"
  else if name = "CDK_HOSTED_ZONE_ID" then some "env-zone"
  else if name = "CDK_APP_PORT_NUM" then some "8082"
  else if name = "CDK_TERMINATION_WAIT_TIME_MINUTES" then some "13"
  else none

/-- An empty process environment. -/
def envEmpty : String → Option String := fun _ => none

/-- The configuration resolved from `minContextExample` with no file and an
empty environment: required fields from the context, defaults elsewhere. -/
def minResolvedExample : ResolvedAppConfig :=
  { account := some (JsonVal.str "a")
    region := some (JsonVal.str "r")
    serviceName := some (JsonVal.str "s")
    domainName := some (JsonVal.str "d")
    hostedZoneId := some (JsonVal.str "")
    appPortNum := JsNum.int 3000
    envConfigs := []
    terminationWaitTimeMinutes := JsNum.int 5
    wantGrafana := false }

/-- The configuration resolved from `fileExampleA` with empty context,
under any environment: every scalar from the file. -/
def fileResolvedExample : ResolvedAppConfig :=
  { account := some (JsonVal.str "file-acct")
    region := some (JsonVal.str "file-region")
    serviceName := some (JsonVal.str "file-svc")
    domainName := some (JsonVal.str "file-domain")
    hostedZoneId := some (JsonVal.str "file-zone")
    appPortNum := JsNum.int 8081
    envConfigs := []
    terminationWaitTimeMinutes := JsNum.int 11
    wantGrafana := false }

/-- The configuration resolved from a present file holding only the four
required fields (`minBaseExample`) together with `envExampleC`: required
scalars from the file, the optional scalars it omits from the environment. -/
def mixedResolvedExample : ResolvedAppConfig :=
  { account := some (JsonVal.str "a")
    region := some (JsonVal.str "r")
    serviceName := some (JsonVal.str "s")
    domainName := some (JsonVal.str "d")
    hostedZoneId := some (JsonVal.str "env-zone")
    appPortNum := JsNum.int 8082
    envConfigs := []
    terminationWaitTimeMinutes := JsNum.int 13
    wantGrafana := false }

/-- The configuration resolved from `envExampleC` alone (empty context, no
file): every scalar from the environment variables. -/
def envResolvedExample : ResolvedAppConfig :=
  { account := some (JsonVal.str "env-acct")
    region := some (JsonVal.str "env-region")
    serviceName := some (JsonVal.str "env-svc")
    domainName := some (JsonVal.str "env-domain")
    hostedZoneId := some (JsonVal.str "env-zone")
    appPortNum := JsNum.int 8082
    envConfigs := []
    terminationWaitTimeMinutes := JsNum.int 13
    wantGrafana := false }

/-! Theorems. -/

/-- Elimination for a successful resolution from a base configuration: the
returned configuration is exactly the record of per-field resolutions. -/
theorem resolveFromBase_ok_elim (baseConfig : JsonVal)
    (env : String → Option String) (cfg : ResolvedAppConfig)
    (h : resolveFromBase baseConfig env = Except.ok cfg) :
    cfg =
      { account := resolvedAccount baseConfig env
        region := resolvedRegion baseConfig env
        serviceName := resolvedServiceName baseConfig env
        domainName := resolvedDomainName baseConfig env
        hostedZoneId := resolvedHostedZoneId baseConfig env
        appPortNum := resolvedAppPortNum baseConfig env
        envConfigs := buildEnvConfigs baseConfig
        terminationWaitTimeMinutes := resolvedTerminationWait baseConfig env
        wantGrafana := resolvedWantGrafana baseConfig } := by
  unfold resolveFromBase at h
  split at h
  · exact Except.noConfusion h
  split at h
  · exact Except.noConfusion h
  split at h
  · exact Except.noConfusion h
  split at h
  · exact Except.noConfusion h
  injection h with h
  exact h.symm

/-- Elimination for a successful `loadAppConfig` call. -/
theorem loadAppConfig_ok_elim (context : Option JsonVal) (file : FileOutcome)
    (env : String → Option String) (cfg : ResolvedAppConfig)
    (h : loadAppConfig context file env = Except.ok cfg) :
    cfg =
      { account := resolvedAccount (selectBase context file) env
        region := resolvedRegion (selectBase context file) env
        serviceName := resolvedServiceName (selectBase context file) env
        domainName := resolvedDomainName (selectBase context file) env
        hostedZoneId := resolvedHostedZoneId (selectBase context file) env
        appPortNum := resolvedAppPortNum (selectBase context file) env
        envConfigs := buildEnvConfigs (selectBase context file)
        terminationWaitTimeMinutes := resolvedTerminationWait (selectBase context file) env
        wantGrafana := resolvedWantGrafana (selectBase context file) } :=
  resolveFromBase_ok_elim (selectBase context file) env cfg h

/-- Coalescing keeps a non-nullish left operand. -/
theorem jsCoalesce_left (a b : Option JsonVal) (h : jsNullish a = false) :
    jsCoalesce a b = a := by
  simp [jsCoalesce, h]

/-- Coalescing falls through a nullish left operand. -/
theorem jsCoalesce_right (a b : Option JsonVal) (h : jsNullish a = true) :
    jsCoalesce a b = b := by
  simp [jsCoalesce, h]

/-- A truthy value is not nullish. -/
theorem jsTruthyV_not_nullish (v : JsonVal) (h : jsTruthyV v = true) :
    jsNullish (some v) = false := by
  cases v <;> simp_all [jsTruthyV, jsNullish]

/-- C6: a configuration file that exists but fails to read or parse is
treated identically to an absent file: resolution does not abort, and for
every context and environment the output equals that of the same call with
no file present. -/
theorem C6_parse_error_degrades_to_absent (context : Option JsonVal)
    (env : String → Option String) :
    loadAppConfig context FileOutcome.parseError env
      = loadAppConfig context FileOutcome.absent env := rfl

/-- C5: when resolution succeeds and no source supplies the port, the
termination wait, or the zone id (the selected base configuration has them
nullish and the fallback environment variables are unset), the output has
`appPortNum = 3000`, `terminationWaitTimeMinutes = 5` and
`hostedZoneId = ""`. -/
theorem C5_defaults (context : Option JsonVal) (file : FileOutcome)
    (env : String → Option String) (cfg : ResolvedAppConfig)
    (hok : loadAppConfig context file env = Except.ok cfg)
    (hz : jsNullish (getField (selectBase context file) "hostedZoneId") = true)
    (hze : env "CDK_HOSTED_ZONE_ID" = none)
    (hp : jsNullish (getField (selectBase context file) "appPortNum") = true)
    (hpe : env "CDK_APP_PORT_NUM" = none)
    (hw : jsNullish (getField (selectBase context file) "terminationWaitTimeMinutes") = true)
    (hwe : env "CDK_TERMINATION_WAIT_TIME_MINUTES" = none) :
    cfg.appPortNum = JsNum.int 3000 ∧
    cfg.terminationWaitTimeMinutes = JsNum.int 5 ∧
    cfg.hostedZoneId = some (JsonVal.str "") := by
  have hcfg := loadAppConfig_ok_elim context file env cfg hok
  subst hcfg
  have hzE : envStr env "CDK_HOSTED_ZONE_ID" = none := by simp [envStr, hze]
  have hpE : envStr env "CDK_APP_PORT_NUM" = none := by simp [envStr, hpe]
  have hwE : envStr env "CDK_TERMINATION_WAIT_TIME_MINUTES" = none := by simp [envStr, hwe]
  refine ⟨?_, ?_, ?_⟩
  · show resolvedAppPortNum (selectBase context file) env = JsNum.int 3000
    rw [resolvedAppPortNum, jsCoalesce_right _ _ hp, hpE, jsCoalesce_right none _ rfl]
    rfl
  · show resolvedTerminationWait (selectBase context file) env = JsNum.int 5
    rw [resolvedTerminationWait, jsCoalesce_right _ _ hw, hwE, jsCoalesce_right none _ rfl]
    rfl
  · show resolvedHostedZoneId (selectBase context file) env = some (JsonVal.str "")
    rw [resolvedHostedZoneId, jsCoalesce_right _ _ hz, hzE, jsCoalesce_right none _ rfl]

/-- Witness for C5: `minContextExample`, no file and an empty environment
supply no port, no termination wait and no zone id; the defaults appear. -/
theorem C5_defaults_witness :
    minResolvedExample.appPortNum = JsNum.int 3000 ∧
    minResolvedExample.terminationWaitTimeMinutes = JsNum.int 5 ∧
    minResolvedExample.hostedZoneId = some (JsonVal.str "") :=
  C5_defaults (some minContextExample) FileOutcome.absent envEmpty
    minResolvedExample rfl rfl rfl rfl rfl rfl rfl

/-- C1 counterexample: with an in-memory context present whose `myAppConfig`
is a non-empty object, the environment is still consulted for a zone id the
context does not supply (two environments give two different outputs), and a
telemetry flag supplied as `true` by the context resolves to `false`, so the
context is not the sole source of every scalar field. -/
theorem C1_context_not_sole_source_counterexample :
    (loadAppConfig (some minContextExample) FileOutcome.absent envExampleC).map
        (fun c => c.hostedZoneId) = Except.ok (some (JsonVal.str "env-zone")) ∧
    (loadAppConfig (some minContextExample) FileOutcome.absent envEmpty).map
        (fun c => c.hostedZoneId) = Except.ok (some (JsonVal.str "")) ∧
    JsonVal.str "env-zone" ≠ JsonVal.str "" ∧
    (loadAppConfig (some fullContextExample) FileOutcome.absent envEmpty).map
        (fun c => c.wantGrafana) = Except.ok false := by
  refine ⟨rfl, rfl, ?_, rfl⟩
  intro hcontra
  injection hcontra with hcontra
  exact absurd hcontra (by decide)

/-- C1 (amended): when the in-memory context carries a truthy object-valued
`myAppConfig`, that object is the base configuration and the file is never
consulted; every scalar field the context supplies (truthy required fields,
non-nullish optional scalars) resolves from the context value alone, so the
output is independent of the file and the environment — except that the
telemetry flag is computed as strict equality of the context value with
`false`, and fields the context does not supply would still fall through to
environment variables. -/
theorem C1_context_precedence_amended (context : Option JsonVal)
    (m a r s d z p w : JsonVal)
    (hm : contextAppConfig context = some m)
    (ha : getField m "account" = some a) (hat : jsTruthyV a = true)
    (hr : getField m "region" = some r) (hrt : jsTruthyV r = true)
    (hs : getField m "serviceName" = some s) (hst : jsTruthyV s = true)
    (hd : getField m "domainName" = some d) (hdt : jsTruthyV d = true)
    (hz : getField m "hostedZoneId" = some z) (hzn : jsNullish (some z) = false)
    (hp : getField m "appPortNum" = some p) (hpn : jsNullish (some p) = false)
    (hw : getField m "terminationWaitTimeMinutes" = some w)
    (hwn : jsNullish (some w) = false)
    (file : FileOutcome) (env : String → Option String) :
    loadAppConfig context file env =
      Except.ok
        { account := some a
          region := some r
          serviceName := some s
          domainName := some d
          hostedZoneId := some z
          appPortNum := toNumber (some p)
          envConfigs := buildEnvConfigs m
          terminationWaitTimeMinutes := toNumber (some w)
          wantGrafana := resolvedWantGrafana m } := by
  have hbase : selectBase context file = m := by
    unfold selectBase
    rw [hm]
  have hacc : resolvedAccount m env = some a := by
    rw [resolvedAccount, ha, jsCoalesce_left _ _ (jsTruthyV_not_nullish a hat)]
  have hreg : resolvedRegion m env = some r := by
    rw [resolvedRegion, hr, jsCoalesce_left _ _ (jsTruthyV_not_nullish r hrt)]
  have hsvc : resolvedServiceName m env = some s := by
    rw [resolvedServiceName, hs, jsCoalesce_left _ _ (jsTruthyV_not_nullish s hst)]
  have hdom : resolvedDomainName m env = some d := by
    rw [resolvedDomainName, hd, jsCoalesce_left _ _ (jsTruthyV_not_nullish d hdt)]
  have hzone : resolvedHostedZoneId m env = some z := by
    rw [resolvedHostedZoneId, hz, jsCoalesce_left _ _ hzn, jsCoalesce_left _ _ hzn]
  have hport : resolvedAppPortNum m env = toNumber (some p) := by
    rw [resolvedAppPortNum, hp, jsCoalesce_left _ _ hpn, jsCoalesce_left _ _ hpn]
  have hwait : resolvedTerminationWait m env = toNumber (some w) := by
    rw [resolvedTerminationWait, hw, jsCoalesce_left _ _ hwn, jsCoalesce_left _ _ hwn]
  rw [loadAppConfig, hbase, resolveFromBase, hacc, hreg, hsvc, hdom]
  simp [jsTruthy, hat, hrt, hst, hdt, hzone, hport, hwait]

/-- Witness for C1 (amended) at the full concrete context: the resolution
ignores a present file and an environment full of different sentinels. -/
theorem C1_context_precedence_amended_witness :
    loadAppConfig (some fullContextExample) (FileOutcome.parsed fileExampleA) envExampleC =
      Except.ok
        { account := some (JsonVal.str "ctx-acct")
          region := some (JsonVal.str "ctx-region")
          serviceName := some (JsonVal.str "ctx-svc")
          domainName := some (JsonVal.str "ctx-domain")
          hostedZoneId := some (JsonVal.str "ctx-zone")
          appPortNum := toNumber (some (JsonVal.num 8080))
          envConfigs := buildEnvConfigs fullBaseExample
          terminationWaitTimeMinutes := toNumber (some (JsonVal.num 9))
          wantGrafana := resolvedWantGrafana fullBaseExample } :=
  C1_context_precedence_amended (some fullContextExample) fullBaseExample
    (JsonVal.str "ctx-acct") (JsonVal.str "ctx-region") (JsonVal.str "ctx-svc")
    (JsonVal.str "ctx-domain") (JsonVal.str "ctx-zone") (JsonVal.num 8080)
    (JsonVal.num 9)
    rfl rfl rfl rfl rfl rfl rfl rfl rfl rfl rfl rfl rfl rfl rfl
    (FileOutcome.parsed fileExampleA) envExampleC

/-- C2: the telemetry flag is not taken over from the base configuration and
no environment variable is ever consulted for it: the source computes
`wantGrafana` as strict equality of the base value with `false`, so a base
configuration supplying `true` resolves to `false` and one supplying `false`
resolves to `true` — the code inverts the supplied flag (code bug). -/
theorem C2_wantGrafana_inverted :
    (loadAppConfig (some fullContextExample) FileOutcome.absent envEmpty).map
        (fun c => c.wantGrafana) = Except.ok false ∧
    (loadAppConfig (some grafanaFalseContextExample) FileOutcome.absent envEmpty).map
        (fun c => c.wantGrafana) = Except.ok true :=
  ⟨rfl, rfl⟩

/-- C3: when a required field is missing after all tiers (its resolved value
is falsy), resolution fails with the error message naming that field through
its environment variable, checking in order account, region, serviceName,
domainName, and returns no configuration at all; in particular, with empty
context, no file and no environment variables set, the error is the
`CDK_DEFAULT_ACCOUNT` one. -/
theorem C3_missing_required_field (context : Option JsonVal) (file : FileOutcome)
    (env : String → Option String) :
    (jsTruthy (resolvedAccount (selectBase context file) env) = false →
      loadAppConfig context file env = Except.error accountRequiredMsg) ∧
    (jsTruthy (resolvedAccount (selectBase context file) env) = true →
      jsTruthy (resolvedRegion (selectBase context file) env) = false →
      loadAppConfig context file env = Except.error regionRequiredMsg) ∧
    (jsTruthy (resolvedAccount (selectBase context file) env) = true →
      jsTruthy (resolvedRegion (selectBase context file) env) = true →
      jsTruthy (resolvedServiceName (selectBase context file) env) = false →
      loadAppConfig context file env = Except.error serviceNameRequiredMsg) ∧
    (jsTruthy (resolvedAccount (selectBase context file) env) = true →
      jsTruthy (resolvedRegion (selectBase context file) env) = true →
      jsTruthy (resolvedServiceName (selectBase context file) env) = true →
      jsTruthy (resolvedDomainName (selectBase context file) env) = false →
      loadAppConfig context file env = Except.error domainNameRequiredMsg) ∧
    loadAppConfig none FileOutcome.absent envEmpty = Except.error accountRequiredMsg := by
  refine ⟨?_, ?_, ?_, ?_, rfl⟩
  · intro h1
    simp [loadAppConfig, resolveFromBase, h1]
  · intro h1 h2
    simp [loadAppConfig, resolveFromBase, h1, h2]
  · intro h1 h2 h3
    simp [loadAppConfig, resolveFromBase, h1, h2, h3]
  · intro h1 h2 h3 h4
    simp [loadAppConfig, resolveFromBase, h1, h2, h3, h4]

/-- Witness for C3: empty context, absent file and empty environment yield
the account error, by the first conjunct of the theorem. -/
theorem C3_missing_required_field_witness :
    loadAppConfig none FileOutcome.absent envEmpty = Except.error accountRequiredMsg :=
  (C3_missing_required_field none FileOutcome.absent envEmpty).1 rfl

/-- C9: a base configuration mapping a required field to the empty string is
present for precedence (the environment tier is never consulted, whatever
`env` holds) but missing for validation: resolution fails with that field
error, taking the four required fields in check order. -/
theorem C9_empty_string_required (context : Option JsonVal) (file : FileOutcome)
    (env : String → Option String) :
    (getField (selectBase context file) "account" = some (JsonVal.str "") →
      loadAppConfig context file env = Except.error accountRequiredMsg) ∧
    (jsTruthy (resolvedAccount (selectBase context file) env) = true →
      getField (selectBase context file) "region" = some (JsonVal.str "") →
      loadAppConfig context file env = Except.error regionRequiredMsg) ∧
    (jsTruthy (resolvedAccount (selectBase context file) env) = true →
      jsTruthy (resolvedRegion (selectBase context file) env) = true →
      getField (selectBase context file) "serviceName" = some (JsonVal.str "") →
      loadAppConfig context file env = Except.error serviceNameRequiredMsg) ∧
    (jsTruthy (resolvedAccount (selectBase context file) env) = true →
      jsTruthy (resolvedRegion (selectBase context file) env) = true →
      jsTruthy (resolvedServiceName (selectBase context file) env) = true →
      getField (selectBase context file) "domainName" = some (JsonVal.str "") →
      loadAppConfig context file env = Except.error domainNameRequiredMsg) := by
  have hEmptyFalsy : ∀ envv : Option JsonVal,
      jsCoalesce (some (JsonVal.str "")) envv = some (JsonVal.str "") :=
    fun envv => jsCoalesce_left _ _ rfl
  refine ⟨?_, ?_, ?_, ?_⟩
  · intro hb
    have h1 : jsTruthy (resolvedAccount (selectBase context file) env) = false := by
      rw [resolvedAccount, hb, hEmptyFalsy]
      rfl
    simp [loadAppConfig, resolveFromBase, h1]
  · intro ha hb
    have h2 : jsTruthy (resolvedRegion (selectBase context file) env) = false := by
      rw [resolvedRegion, hb, hEmptyFalsy]
      rfl
    simp [loadAppConfig, resolveFromBase, ha, h2]
  · intro ha hr hb
    have h3 : jsTruthy (resolvedServiceName (selectBase context file) env) = false := by
      rw [resolvedServiceName, hb, hEmptyFalsy]
      rfl
    simp [loadAppConfig, resolveFromBase, ha, hr, h3]
  · intro ha hr hsvc hb
    have h4 : jsTruthy (resolvedDomainName (selectBase context file) env) = false := by
      rw [resolvedDomainName, hb, hEmptyFalsy]
      rfl
    simp [loadAppConfig, resolveFromBase, ha, hr, hsvc, h4]

/-- Witness for C9: a context supplying the empty string for `account` fails
with the account error although `CDK_DEFAULT_ACCOUNT` is set and non-empty. -/
theorem C9_empty_string_required_witness :
    loadAppConfig (some emptyAccountContextExample) FileOutcome.absent envExampleC
      = Except.error accountRequiredMsg :=
  (C9_empty_string_required (some emptyAccountContextExample)
    FileOutcome.absent envExampleC).1 rfl

/-- C4: with an empty (unrecognized) in-memory context, each scalar field is
resolved independently with the file over the environment: a non-nullish
value the parsed file supplies is returned whatever the environment holds;
when the file is absent the value comes from the specifically-named
environment variable; and when the file is present but does not supply the
field (nullish entry), the value likewise comes from that same environment
variable on the very same parsed-file run. -/
theorem C4_file_over_env (context : Option JsonVal) (fileV : JsonVal)
    (env : String → Option String) (cfg cfg2 : ResolvedAppConfig)
    (hctx : contextAppConfig context = none)
    (hok : loadAppConfig context (FileOutcome.parsed fileV) env = Except.ok cfg)
    (hok2 : loadAppConfig context FileOutcome.absent env = Except.ok cfg2) :
    (∀ v, getField fileV "account" = some v → jsNullish (some v) = false →
      cfg.account = some v) ∧
    (∀ v, getField fileV "region" = some v → jsNullish (some v) = false →
      cfg.region = some v) ∧
    (∀ v, getField fileV "serviceName" = some v → jsNullish (some v) = false →
      cfg.serviceName = some v) ∧
    (∀ v, getField fileV "domainName" = some v → jsNullish (some v) = false →
      cfg.domainName = some v) ∧
    (∀ v, getField fileV "hostedZoneId" = some v → jsNullish (some v) = false →
      cfg.hostedZoneId = some v) ∧
    (∀ v, getField fileV "appPortNum" = some v → jsNullish (some v) = false →
      cfg.appPortNum = toNumber (some v)) ∧
    (∀ v, getField fileV "terminationWaitTimeMinutes" = some v →
      jsNullish (some v) = false → cfg.terminationWaitTimeMinutes = toNumber (some v)) ∧
    (∀ value, env "CDK_DEFAULT_ACCOUNT" = some value →
      cfg2.account = some (JsonVal.str value)) ∧
    (∀ value, env "CDK_DEFAULT_REGION" = some value →
      cfg2.region = some (JsonVal.str value)) ∧
    (∀ value, env "CDK_SERVICE_NAME" = some value →
      cfg2.serviceName = some (JsonVal.str value)) ∧
    (∀ value, env "CDK_DOMAIN_NAME" = some value →
      cfg2.domainName = some (JsonVal.str value)) ∧
    (∀ value, env "CDK_HOSTED_ZONE_ID" = some value →
      cfg2.hostedZoneId = some (JsonVal.str value)) ∧
    (∀ value, env "CDK_APP_PORT_NUM" = some value →
      cfg2.appPortNum = parseJsNumber value) ∧
    (∀ value, env "CDK_TERMINATION_WAIT_TIME_MINUTES" = some value →
      cfg2.terminationWaitTimeMinutes = parseJsNumber value) ∧
    (∀ value, jsNullish (getField fileV "account") = true →
      env "CDK_DEFAULT_ACCOUNT" = some value →
      cfg.account = some (JsonVal.str value)) ∧
    (∀ value, jsNullish (getField fileV "region") = true →
      env "CDK_DEFAULT_REGION" = some value →
      cfg.region = some (JsonVal.str value)) ∧
    (∀ value, jsNullish (getField fileV "serviceName") = true →
      env "CDK_SERVICE_NAME" = some value →
      cfg.serviceName = some (JsonVal.str value)) ∧
    (∀ value, jsNullish (getField fileV "domainName") = true →
      env "CDK_DOMAIN_NAME" = some value →
      cfg.domainName = some (JsonVal.str value)) ∧
    (∀ value, jsNullish (getField fileV "hostedZoneId") = true →
      env "CDK_HOSTED_ZONE_ID" = some value →
      cfg.hostedZoneId = some (JsonVal.str value)) ∧
    (∀ value, jsNullish (getField fileV "appPortNum") = true →
      env "CDK_APP_PORT_NUM" = some value →
      cfg.appPortNum = parseJsNumber value) ∧
    (∀ value, jsNullish (getField fileV "terminationWaitTimeMinutes") = true →
      env "CDK_TERMINATION_WAIT_TIME_MINUTES" = some value →
      cfg.terminationWaitTimeMinutes = parseJsNumber value) := by
  have hbase : selectBase context (FileOutcome.parsed fileV) = fileV := by
    unfold selectBase
    rw [hctx]
    rfl
  have hbase2 : selectBase context FileOutcome.absent = JsonVal.obj [] := by
    unfold selectBase
    rw [hctx]
    rfl
  have hcfg := loadAppConfig_ok_elim context (FileOutcome.parsed fileV) env cfg hok
  have hcfg2 := loadAppConfig_ok_elim context FileOutcome.absent env cfg2 hok2
  rw [hbase] at hcfg
  rw [hbase2] at hcfg2
  subst hcfg
  subst hcfg2
  refine ⟨?_, ?_, ?_, ?_, ?_, ?_, ?_, ?_, ?_, ?_, ?_, ?_, ?_, ?_, ?_, ?_, ?_, ?_, ?_, ?_, ?_⟩
  · intro v hv hvn
    show resolvedAccount fileV env = some v
    rw [resolvedAccount, hv, jsCoalesce_left _ _ hvn]
  · intro v hv hvn
    show resolvedRegion fileV env = some v
    rw [resolvedRegion, hv, jsCoalesce_left _ _ hvn]
  · intro v hv hvn
    show resolvedServiceName fileV env = some v
    rw [resolvedServiceName, hv, jsCoalesce_left _ _ hvn]
  · intro v hv hvn
    show resolvedDomainName fileV env = some v
    rw [resolvedDomainName, hv, jsCoalesce_left _ _ hvn]
  · intro v hv hvn
    show resolvedHostedZoneId fileV env = some v
    rw [resolvedHostedZoneId, hv, jsCoalesce_left _ _ hvn, jsCoalesce_left _ _ hvn]
  · intro v hv hvn
    show resolvedAppPortNum fileV env = toNumber (some v)
    rw [resolvedAppPortNum, hv, jsCoalesce_left _ _ hvn, jsCoalesce_left _ _ hvn]
  · intro v hv hvn
    show resolvedTerminationWait fileV env = toNumber (some v)
    rw [resolvedTerminationWait, hv, jsCoalesce_left _ _ hvn, jsCoalesce_left _ _ hvn]
  · intro value hv
    show resolvedAccount (JsonVal.obj []) env = some (JsonVal.str value)
    simp [resolvedAccount, getField, lookupField, envStr, hv, jsCoalesce, jsNullish]
  · intro value hv
    show resolvedRegion (JsonVal.obj []) env = some (JsonVal.str value)
    simp [resolvedRegion, getField, lookupField, envStr, hv, jsCoalesce, jsNullish]
  · intro value hv
    show resolvedServiceName (JsonVal.obj []) env = some (JsonVal.str value)
    simp [resolvedServiceName, getField, lookupField, envStr, hv, jsCoalesce, jsNullish]
  · intro value hv
    show resolvedDomainName (JsonVal.obj []) env = some (JsonVal.str value)
    simp [resolvedDomainName, getField, lookupField, envStr, hv, jsCoalesce, jsNullish]
  · intro value hv
    show resolvedHostedZoneId (JsonVal.obj []) env = some (JsonVal.str value)
    simp [resolvedHostedZoneId, getField, lookupField, envStr, hv, jsCoalesce, jsNullish]
  · intro value hv
    show resolvedAppPortNum (JsonVal.obj []) env = parseJsNumber value
    simp [resolvedAppPortNum, getField, lookupField, envStr, hv, jsCoalesce, jsNullish,
      toNumber]
  · intro value hv
    show resolvedTerminationWait (JsonVal.obj []) env = parseJsNumber value
    simp [resolvedTerminationWait, getField, lookupField, envStr, hv, jsCoalesce, jsNullish,
      toNumber]
  · intro value hnull hv
    show resolvedAccount fileV env = some (JsonVal.str value)
    have hE : envStr env "CDK_DEFAULT_ACCOUNT" = some (JsonVal.str value) := by
      simp [envStr, hv]
    rw [resolvedAccount, jsCoalesce_right _ _ hnull, hE]
  · intro value hnull hv
    show resolvedRegion fileV env = some (JsonVal.str value)
    have hE : envStr env "CDK_DEFAULT_REGION" = some (JsonVal.str value) := by
      simp [envStr, hv]
    rw [resolvedRegion, jsCoalesce_right _ _ hnull, hE]
  · intro value hnull hv
    show resolvedServiceName fileV env = some (JsonVal.str value)
    have hE : envStr env "CDK_SERVICE_NAME" = some (JsonVal.str value) := by
      simp [envStr, hv]
    rw [resolvedServiceName, jsCoalesce_right _ _ hnull, hE]
  · intro value hnull hv
    show resolvedDomainName fileV env = some (JsonVal.str value)
    have hE : envStr env "CDK_DOMAIN_NAME" = some (JsonVal.str value) := by
      simp [envStr, hv]
    rw [resolvedDomainName, jsCoalesce_right _ _ hnull, hE]
  · intro value hnull hv
    show resolvedHostedZoneId fileV env = some (JsonVal.str value)
    have hE : envStr env "CDK_HOSTED_ZONE_ID" = some (JsonVal.str value) := by
      simp [envStr, hv]
    rw [resolvedHostedZoneId, jsCoalesce_right _ _ hnull, hE,
      jsCoalesce_left (some (JsonVal.str value)) _ rfl]
  · intro value hnull hv
    show resolvedAppPortNum fileV env = parseJsNumber value
    have hE : envStr env "CDK_APP_PORT_NUM" = some (JsonVal.str value) := by
      simp [envStr, hv]
    rw [resolvedAppPortNum, jsCoalesce_right _ _ hnull, hE,
      jsCoalesce_left (some (JsonVal.str value)) _ rfl]
    rfl
  · intro value hnull hv
    show resolvedTerminationWait fileV env = parseJsNumber value
    have hE : envStr env "CDK_TERMINATION_WAIT_TIME_MINUTES" = some (JsonVal.str value) := by
      simp [envStr, hv]
    rw [resolvedTerminationWait, jsCoalesce_right _ _ hnull, hE,
      jsCoalesce_left (some (JsonVal.str value)) _ rfl]
    rfl

/-- Witness for C4: the file sentinels win over the environment sentinels,
with no file the environment sentinels are used, and on a run whose present
file omits the zone id and the port, those two come from the environment. -/
theorem C4_file_over_env_witness :
    fileResolvedExample.account = some (JsonVal.str "file-acct") ∧
    envResolvedExample.account = some (JsonVal.str "env-acct") ∧
    mixedResolvedExample.hostedZoneId = some (JsonVal.str "env-zone") ∧
    mixedResolvedExample.appPortNum = parseJsNumber "8082" := by
  have h := C4_file_over_env none fileExampleA envExampleC
    fileResolvedExample envResolvedExample rfl rfl rfl
  have h2 := C4_file_over_env none minBaseExample envExampleC
    mixedResolvedExample envResolvedExample rfl rfl rfl
  obtain ⟨-, -, -, -, -, -, -, -, -, -, -, -, -, -, -, -, -, -, hzone, hport, -⟩ := h2
  exact ⟨h.1 _ rfl rfl, h.2.2.2.2.2.2.2.1 _ rfl, hzone _ rfl rfl, hport _ rfl rfl⟩

/-- C7: over an object-valued base configuration (JavaScript object keys are
unique, hence the `Nodup` hypothesis), `envConfigs` has exactly one entry per
non-reserved top-level key — its key list is the filtered key list, without
duplicates — every entry is the extraction of that key, every non-reserved
key produces its entry, no reserved key appears, and a truthy entry value is
projected field-by-field by the extractor. -/
theorem C7_envConfigs (fields : List (String × JsonVal))
    (hnd : (fields.map Prod.fst).Nodup) :
    ((buildEnvConfigs (JsonVal.obj fields)).map Prod.fst
      = (fields.map Prod.fst).filter (fun key => !(RESERVED.contains key))) ∧
    (∀ key e, (key, e) ∈ buildEnvConfigs (JsonVal.obj fields) →
      key ∉ RESERVED ∧ e = extractEnv (JsonVal.obj fields) key) ∧
    (∀ key, key ∈ fields.map Prod.fst → key ∉ RESERVED →
      (key, extractEnv (JsonVal.obj fields) key) ∈ buildEnvConfigs (JsonVal.obj fields)) ∧
    ((buildEnvConfigs (JsonVal.obj fields)).map Prod.fst).Nodup ∧
    (∀ key v, getField (JsonVal.obj fields) key = some v → jsTruthyV v = true →
      extractEnv (JsonVal.obj fields) key = extractEnvRaw v) := by
  have hcomp : (Prod.fst ∘ fun key => (key, extractEnv (JsonVal.obj fields) key))
      = (id : String → String) := rfl
  have hmap : (buildEnvConfigs (JsonVal.obj fields)).map Prod.fst
      = (fields.map Prod.fst).filter (fun key => !(RESERVED.contains key)) := by
    rw [buildEnvConfigs, List.map_map, hcomp, List.map_id, objKeys]
  refine ⟨hmap, ?_, ?_, ?_, ?_⟩
  · intro key e hmem
    rw [buildEnvConfigs] at hmem
    obtain ⟨k2, hk2, heq⟩ := List.mem_map.mp hmem
    obtain ⟨heq1, heq2⟩ := Prod.mk.injEq .. ▸ heq
    subst heq1
    subst heq2
    have hk3 := (List.mem_filter.mp hk2).2
    exact ⟨by simpa using hk3, rfl⟩
  · intro key hkey hres
    rw [buildEnvConfigs]
    exact List.mem_map.mpr ⟨key,
      List.mem_filter.mpr ⟨by simpa [objKeys] using hkey, by simpa using hres⟩, rfl⟩
  · rw [hmap]
    exact hnd.filter _
  · intro key v hv hvt
    rw [extractEnv, hv, jsOr]
    simp [hvt]

/-- Witness for C7 at `fullBaseExample`: the only non-reserved top-level key
is the environment key `dev`, and its entry carries the nested image tag. -/
theorem C7_envConfigs_witness :
    (buildEnvConfigs fullBaseExample).map Prod.fst = ["dev"] ∧
    (extractEnv fullBaseExample "dev").imageTag = some (JsonVal.str "v1") := by
  have h := C7_envConfigs fullBaseFields (by decide)
  refine ⟨h.1.trans (by decide), ?_⟩
  show (extractEnv (JsonVal.obj fullBaseFields) "dev").imageTag = some (JsonVal.str "v1")
  rw [h.2.2.2.2 "dev" _ rfl rfl]
  rfl

/-- C8: the per-environment extractor is total: an absent, nullish or
otherwise falsy raw entry yields the all-absent record, a truthy entry is
projected field-by-field (each field is the corresponding property of the
bag, absent when not carried), and a truthy non-object entry also yields the
all-absent record; no failure is possible. -/
theorem C8_extractEnv_total (baseConfig : JsonVal) (key : String) :
    (jsTruthy (getField baseConfig key) = false →
      extractEnv baseConfig key = emptyEnvConfig) ∧
    (∀ v, getField baseConfig key = some v → jsTruthyV v = true →
      extractEnv baseConfig key = extractEnvRaw v) ∧
    (∀ v, getField baseConfig key = some v → jsTruthyV v = true →
      (∀ fields, v ≠ JsonVal.obj fields) →
      extractEnv baseConfig key = emptyEnvConfig) := by
  refine ⟨?_, ?_, ?_⟩
  · intro hfalsy
    cases hv : getField baseConfig key with
    | none => rw [extractEnv, hv]; rfl
    | some v =>
        rw [hv] at hfalsy
        rw [extractEnv, hv, jsOr]
        simp only [jsTruthy] at hfalsy
        simp [hfalsy]
        rfl
  · intro v hv hvt
    rw [extractEnv, hv, jsOr]
    simp [hvt]
  · intro v hv hvt hnotobj
    rw [extractEnv, hv, jsOr]
    simp only [hvt, if_true]
    cases v with
    | obj fields => exact absurd rfl (hnotobj fields)
    | null => exact absurd hvt (by simp [jsTruthyV])
    | bool b => cases b with
        | false => exact absurd hvt (by simp [jsTruthyV])
        | true => rfl
    | num n => rfl
    | str s => rfl
    | arr elems => rfl

/-- Witness for C8: a key absent from the base yields the all-absent record. -/
theorem C8_extractEnv_total_witness :
    extractEnv fullBaseExample "missingKey" = emptyEnvConfig :=
  (C8_extractEnv_total fullBaseExample "missingKey").1 rfl

/-- C10: a context argument whose `myAppConfig` property is not a truthy
object-typed value (absent, nullish, falsy, or a primitive — in particular
any flat configuration bag with the scalar fields at top level, the shape
the production call site passes) is ignored entirely: resolution is
identical to a call with no context, proceeding with the file and
environment tiers. -/
theorem C10_context_requires_myAppConfig (c : JsonVal) (file : FileOutcome)
    (env : String → Option String)
    (h : contextAppConfig (some c) = none) :
    loadAppConfig (some c) file env = loadAppConfig none file env := by
  rw [loadAppConfig, loadAppConfig]
  unfold selectBase
  rw [h]
  rfl

/-- Witness for C10: the flat production-shaped bag (all scalar fields at
top level, no `myAppConfig` property) is ignored; resolution equals the
contextless call on the same file and environment. -/
theorem C10_context_requires_myAppConfig_witness :
    loadAppConfig (some fullBaseExample) (FileOutcome.parsed fileExampleA) envExampleC
      = loadAppConfig none (FileOutcome.parsed fileExampleA) envExampleC :=
  C10_context_requires_myAppConfig fullBaseExample
    (FileOutcome.parsed fileExampleA) envExampleC rfl

end AppConfigReader

